import Mathlib

set_option maxRecDepth 10000

/-
Verification development for the storage-engine core of a small DBMS
(disk manager, LRU replacer, buffer pool manager, slotted page, table heap).
Each definition is a shallow embedding of the corresponding Python function;
byte buffers are modelled as functions from index to byte value, and Python
exceptions that a function can raise are modelled with an explicit result type.
The embeddings reproduce the source faithfully, including its slips
(for example the missing return in the cache-hit branch of fetch_page, the
missing value argument in _set_slot_record_offset, the wrong attribute names
in new_page and flush_all_pages, and the wrong offset in _set_num_records).
-/

/-- Result of a Python call: either a value, or an uncaught exception
(identified by the exception type's name). -/
inductive PyResult (α : Type) where
  | ok : α → PyResult α
  | exn : String → PyResult α

/-- A byte buffer: index to byte value.  Buffers of a fixed size (such as a
page's PAGE_SIZE bytes) are represented by the function restricted to indices
below that size; indices at or beyond it are irrelevant to all operations. -/
def ByteBuf : Type := Nat → Nat

/-- The all-zero buffer. -/
def zeroBytes : ByteBuf := fun _ => 0

/-- Big-endian u16 read at an offset (struct.unpack_from with format >H). -/
def readU16 (b : ByteBuf) (off : Nat) : Nat := b off * 256 + b (off + 1)

/-- Big-endian u16 write at an offset (struct.pack_into with format >H). -/
def writeU16 (b : ByteBuf) (off v : Nat) : ByteBuf :=
  fun i => if i = off then v / 256 % 256 else if i = off + 1 then v % 256 else b i

/-- Extract len bytes starting at off as a list (a Python slice). -/
def readRange (b : ByteBuf) (off len : Nat) : List Nat :=
  (List.range len).map (fun i => b (off + i))

/-- config.PAGE_SIZE. -/
def PAGE_SIZE : Nat := 4096

/-- config.INVALID_PAGE_ID. -/
def INVALID_PAGE_ID : Int := -1

/-- storage/page.py Page: a PAGE_SIZE byte buffer plus metadata. -/
structure Page where
  data : ByteBuf
  page_id : Int
  pin_count : Nat
  is_dirty : Bool

/-- A freshly constructed Page() (zero buffer, invalid id, unpinned, clean). -/
def freshPage : Page :=
  { data := zeroBytes, page_id := INVALID_PAGE_ID, pin_count := 0, is_dirty := false }

/-- Page.reset_memory: zero the buffer, reset pin count and dirty flag;
page_id is deliberately left unchanged. -/
def reset_memory (p : Page) : Page :=
  { p with data := zeroBytes, pin_count := 0, is_dirty := false }

/- ---------- Slotted page layout (storage/slotted_page.py) ---------- -/

def PAGE_HEADER_NUM_RECORDS_OFFSET : Nat := 0

def PAGE_HEADER_FREE_DATA_START_OFFSET : Nat := 2

def PAGE_HEADER_SIZE : Nat := 4

def SLOT_ENTRY_SIZE : Nat := 4

/-- SlottedPageWrapper.get_num_records: u16 at offset 0. -/
def get_num_records (p : Page) : Nat :=
  readU16 p.data PAGE_HEADER_NUM_RECORDS_OFFSET

/-- SlottedPageWrapper._set_num_records.  The source packs the value at
PAGE_HEADER_FREE_DATA_START_OFFSET (offset 2), not at the num-records
offset; the embedding reproduces that. -/
def set_num_records (p : Page) (n : Nat) : Page :=
  { p with data := writeU16 p.data PAGE_HEADER_FREE_DATA_START_OFFSET n,
           is_dirty := true }

/-- SlottedPageWrapper.get_free_data_start_ptr: u16 at offset 2. -/
def get_free_data_start_ptr (p : Page) : Nat :=
  readU16 p.data PAGE_HEADER_FREE_DATA_START_OFFSET

/-- SlottedPageWrapper._set_free_data_start_ptr. -/
def set_free_data_start_ptr (p : Page) (v : Nat) : Page :=
  { p with data := writeU16 p.data PAGE_HEADER_FREE_DATA_START_OFFSET v,
           is_dirty := true }

/-- SlottedPageWrapper._get_slot_offset_on_page. -/
def get_slot_offset_on_page (s : Nat) : Nat :=
  PAGE_HEADER_SIZE + s * SLOT_ENTRY_SIZE

/-- Raw read of a slot's record_offset field (no bounds check; callers check). -/
def get_slot_record_offset (p : Page) (s : Nat) : Nat :=
  readU16 p.data (get_slot_offset_on_page s)

/-- Raw read of a slot's record_length field (no bounds check; callers check). -/
def get_slot_record_length (p : Page) (s : Nat) : Nat :=
  readU16 p.data (get_slot_offset_on_page s + 2)

/-- SlottedPageWrapper._set_slot_record_length. -/
def set_slot_record_length (p : Page) (s len : Nat) : Page :=
  { p with data := writeU16 p.data (get_slot_offset_on_page s + 2) len,
           is_dirty := true }

/-- SlottedPageWrapper.initialize: reset_memory, then _set_num_records(0),
then _set_free_data_start_ptr(PAGE_SIZE).  (Because reset_memory zeroes the
buffer, the end state has num_records = 0 at offset 0 even though
_set_num_records writes at the wrong offset.) -/
def slotted_init (p : Page) : Page :=
  set_free_data_start_ptr (set_num_records (reset_memory p) 0) PAGE_SIZE

/-- SlottedPageWrapper.insert_record.  Empty records are rejected with None;
a record that does not fit returns None; on the fit path the source writes
the payload and then calls _set_slot_record_offset, whose struct.pack_into
call omits the value argument, so struct.error is raised and propagates
(the partially mutated page is unreachable past the exception). -/
def insert_record (p : Page) (record_data : List Nat) : PyResult (Page × Option Nat) :=
  let record_len := record_data.length
  if record_len = 0 then PyResult.ok (p, none)
  else
    let n := get_num_records p
    let fds := get_free_data_start_ptr p
    let end_of_new_slot_array : Nat := PAGE_HEADER_SIZE + (n + 1) * SLOT_ENTRY_SIZE
    if (end_of_new_slot_array : Int) > (fds : Int) - (record_len : Int) then
      PyResult.ok (p, none)
    else
      PyResult.exn "struct.error"

/-- SlottedPageWrapper.get_record (slot_num is a Python int, may be negative). -/
def get_record (p : Page) (s : Int) : Option (List Nat) :=
  let n := get_num_records p
  if 0 ≤ s ∧ s < (n : Int) then
    let sn := s.toNat
    let off := get_slot_record_offset p sn
    let len := get_slot_record_length p sn
    if len = 0 then none
    else if off < PAGE_HEADER_SIZE ∨ off + len > PAGE_SIZE then none
    else some (readRange p.data off len)
  else none

/-- SlottedPageWrapper.delete_record: bounds check, idempotent on
already-deleted slots, otherwise set the slot's record_length to 0 and
mark the page dirty. -/
def delete_record (p : Page) (s : Int) : Page × Bool :=
  let n := get_num_records p
  if 0 ≤ s ∧ s < (n : Int) then
    if get_slot_record_length p s.toNat = 0 then (p, true)
    else
      let p1 := set_slot_record_length p s.toNat 0
      ({ p1 with is_dirty := true }, true)
  else (p, false)

/- ---------- Disk manager (storage/disk_manager.py) ---------- -/

/-- Disk manager state: the file contents as a byte function together with the
file length in bytes, plus the page count and the page-id allocator counter. -/
structure DiskState where
  file : ByteBuf
  file_len : Nat
  num_pages : Nat
  next_page_id_counter : Nat

/-- DiskManager.read_page_data.  Negative ids raise ValueError.  Reads of
pages at or beyond num_pages zero-fill the destination; otherwise the page's
extent is read and any short read is zero-padded.  The returned buffer is the
final content of the caller's destination buffer (the destination is always
fully overwritten, so its prior content does not matter).  The source's check
that the destination has PAGE_SIZE bytes is carried by the ByteBuf model. -/
def read_page_data (d : DiskState) (pid : Int) : PyResult ByteBuf :=
  if pid < 0 then PyResult.exn "ValueError"
  else
    let pn := pid.toNat
    if d.num_pages ≤ pn then PyResult.ok zeroBytes
    else
      let off := pn * PAGE_SIZE
      PyResult.ok (fun i => if i < PAGE_SIZE ∧ off + i < d.file_len then d.file (off + i) else 0)

/-- DiskManager.write_page_data.  Negative ids raise ValueError.  Seeking past
the end of the file and writing zero-fills the gap; the file length grows to
cover the written extent; num_pages grows to pid + 1 when the id was beyond
the extent, and the allocator counter is bumped so it never regresses. -/
def write_page_data (d : DiskState) (pid : Int) (src : ByteBuf) : PyResult DiskState :=
  if pid < 0 then PyResult.exn "ValueError"
  else
    let pn := pid.toNat
    let off := pn * PAGE_SIZE
    let newFile : ByteBuf := fun i =>
      if off ≤ i ∧ i < off + PAGE_SIZE then src (i - off)
      else if i < d.file_len then d.file i else 0
    let newLen := max d.file_len (off + PAGE_SIZE)
    if d.num_pages ≤ pn then
      let np := pn + 1
      let ctr := if d.next_page_id_counter < np then np else d.next_page_id_counter
      PyResult.ok { file := newFile, file_len := newLen, num_pages := np,
                    next_page_id_counter := ctr }
    else
      PyResult.ok { file := newFile, file_len := newLen, num_pages := d.num_pages,
                    next_page_id_counter := d.next_page_id_counter }

/-- DiskManager.allocate_page: return the counter and increment it. -/
def allocate_page (d : DiskState) : Int × DiskState :=
  ((d.next_page_id_counter : Int),
   { d with next_page_id_counter := d.next_page_id_counter + 1 })

/- ---------- LRU replacer (buffer/replacer.py) ---------- -/

/-- LRUReplacer.victim: pop and return the front (LRU end), or none. -/
def lru_victim (l : List Nat) : Option Nat × List Nat :=
  match l with
  | [] => (none, [])
  | f :: rest => (some f, rest)

/-- LRUReplacer.pin: remove the frame if present (no-op otherwise). -/
def lru_pin (l : List Nat) (f : Nat) : List Nat := l.erase f

/-- LRUReplacer.unpin: remove any existing occurrence, then append at the
MRU end. -/
def lru_unpin (l : List Nat) (f : Nat) : List Nat := l.erase f ++ [f]

/-- LRUReplacer.size. -/
def lru_size (l : List Nat) : Nat := l.length

/- ---------- Buffer pool manager (buffer/buffer_pool_manager.py) ---------- -/

/-- The page table dict, page_id to frame_id, in insertion order. -/
def PageTable : Type := List (Int × Nat)

/-- Dict lookup. -/
def ptLookup : PageTable → Int → Option Nat
  | [], _ => none
  | (k, v) :: rest, pid => if k = pid then some v else ptLookup rest pid

/-- Dict assignment: overwrite in place if the key exists, else append. -/
def ptSet : PageTable → Int → Nat → PageTable
  | [], pid, f => [(pid, f)]
  | (k, v) :: rest, pid, f =>
    if k = pid then (k, f) :: rest else (k, v) :: ptSet rest pid f

/-- Dict deletion of a key. -/
def ptErase : PageTable → Int → PageTable
  | [], _ => []
  | (k, v) :: rest, pid => if k = pid then rest else (k, v) :: ptErase rest pid

/-- Snapshot of the dict's keys, in insertion order. -/
def ptKeys (t : PageTable) : List Int := t.map (fun kv => kv.1)

/-- The whole system state a BufferPoolManager method can touch: the frame
array (as a function from frame index), the page table, the free list, the
replacer's candidate list and the disk manager state. -/
structure DB where
  pool_size : Nat
  pages : Nat → Page
  page_table : PageTable
  free_list : List Nat
  repl : List Nat
  disk : DiskState

/-- Replace the page held in one frame. -/
def setPage (ps : Nat → Page) (f : Nat) (p : Page) : Nat → Page :=
  fun i => if i = f then p else ps i

/-- The page-table cleanup _find_free_frame performs on the evicted frame:
remove the victim's old id when it is valid and still maps to this frame. -/
def evictMeta (db : DB) (v : Nat) (vp : Page) : DB :=
  if vp.page_id ≠ INVALID_PAGE_ID ∧ ptLookup db.page_table vp.page_id = some v
  then { db with page_table := ptErase db.page_table vp.page_id } else db

/-- BufferPoolManager._find_free_frame: pop the free list's front, else take
the replacer's victim, writing it back first when dirty. -/
def find_free_frame (db : DB) : PyResult (DB × Option Nat) :=
  match db.free_list with
  | f :: rest => PyResult.ok ({ db with free_list := rest }, some f)
  | [] =>
    match db.repl with
    | [] => PyResult.ok (db, none)
    | v :: rest =>
      let db1 := { db with repl := rest }
      let vp := db1.pages v
      if vp.is_dirty then
        match write_page_data db1.disk vp.page_id vp.data with
        | PyResult.exn s => PyResult.exn s
        | PyResult.ok d2 =>
          let vp2 := { vp with is_dirty := false }
          let db2 := { db1 with disk := d2, pages := setPage db1.pages v vp2 }
          PyResult.ok (evictMeta db2 v vp2, some v)
      else
        PyResult.ok (evictMeta db1 v vp, some v)

/-- BufferPoolManager.fetch_page.  Faithful to the source: the cache-hit
branch increments the resident frame's pin count and pins it in the replacer
but does NOT return; control falls through to the miss path, which obtains a
second frame, re-reads the page from disk into it and remaps the page table.
Returns the frame index of the Page object the caller receives. -/
def fetch_page (db : DB) (pid : Int) : PyResult (DB × Option Nat) :=
  let db0 :=
    match ptLookup db.page_table pid with
    | some f =>
      let p := db.pages f
      { db with pages := setPage db.pages f { p with pin_count := p.pin_count + 1 },
                repl := lru_pin db.repl f }
    | none => db
  match find_free_frame db0 with
  | PyResult.exn s => PyResult.exn s
  | PyResult.ok (db1, none) => PyResult.ok (db1, none)
  | PyResult.ok (db1, some f) =>
    let t0 := reset_memory (db1.pages f)
    let t1 := { t0 with page_id := pid }
    match read_page_data db1.disk pid with
    | PyResult.exn s => PyResult.exn s
    | PyResult.ok buf =>
      let t2 := { t1 with data := buf, pin_count := t1.pin_count + 1, is_dirty := false }
      let db2 := { db1 with pages := setPage db1.pages f t2,
                            page_table := ptSet db1.page_table pid f,
                            repl := lru_pin db1.repl f }
      PyResult.ok (db2, some f)

/-- BufferPoolManager.new_page.  Faithful to the source: after obtaining a
frame and allocating a page id, the code accesses self._page (the attribute
is self._pages), so AttributeError is raised and propagates. -/
def new_page (db : DB) : PyResult (DB × Option Nat) :=
  match find_free_frame db with
  | PyResult.exn s => PyResult.exn s
  | PyResult.ok (db1, none) => PyResult.ok (db1, none)
  | PyResult.ok (db1, some _f) =>
    let a := allocate_page db1.disk
    let db2 := { db1 with disk := a.2 }
    if a.1 = INVALID_PAGE_ID then PyResult.ok (db2, none)
    else PyResult.exn "AttributeError"

/-- BufferPoolManager.unpin_page: fail on unknown id or pin count 0; else
decrement, mark dirty when requested (never un-mark), and hand the frame to
the replacer exactly when the pin count reaches 0. -/
def unpin_page (db : DB) (pid : Int) (is_dirty_arg : Bool) : DB × Bool :=
  match ptLookup db.page_table pid with
  | none => (db, false)
  | some f =>
    let p := db.pages f
    if p.pin_count = 0 then (db, false)
    else
      let p1 := { p with pin_count := p.pin_count - 1,
                         is_dirty := p.is_dirty || is_dirty_arg }
      let db1 := { db with pages := setPage db.pages f p1 }
      if p1.pin_count = 0 then ({ db1 with repl := lru_unpin db1.repl f }, true)
      else (db1, true)

/-- Loop body of flush_all_pages over the snapshot of the page table's keys.
Faithful to the source: after writing a dirty page to disk the code calls
self.mark_clean() on the manager, which has no such method, so AttributeError
is raised at the first dirty page. -/
def flush_all_go (db : DB) : List Int → PyResult DB
  | [] => PyResult.ok db
  | pid :: rest =>
    match ptLookup db.page_table pid with
    | none => flush_all_go db rest
    | some f =>
      let p := db.pages f
      if p.is_dirty then
        match write_page_data db.disk p.page_id p.data with
        | PyResult.exn s => PyResult.exn s
        | PyResult.ok _ => PyResult.exn "AttributeError"
      else flush_all_go db rest

/-- BufferPoolManager.flush_all_pages. -/
def flush_all_pages (db : DB) : PyResult DB :=
  flush_all_go db (ptKeys db.page_table)

/-- BufferPoolManager.delete_page. -/
def delete_page (db : DB) (pid : Int) : DB × Bool :=
  match ptLookup db.page_table pid with
  | none => (db, true)
  | some f =>
    let p := db.pages f
    if 0 < p.pin_count then (db, false)
    else
      let db1 := { db with page_table := ptErase db.page_table pid,
                           repl := lru_pin db.repl f,
                           free_list := db.free_list ++ [f] }
      let p0 := reset_memory p
      let p1 := { p0 with page_id := INVALID_PAGE_ID }
      ({ db1 with pages := setPage db1.pages f p1 }, true)

/- ---------- Table heap (storage/table_heap.py) ---------- -/

/-- common/rid.py RID: (page_id, slot_num); slot_num -1 means invalid. -/
structure RID where
  page_id : Int
  slot_num : Int

/-- RID.is_valid. -/
def rid_is_valid (r : RID) : Bool :=
  decide (r.page_id ≠ INVALID_PAGE_ID) && decide (r.slot_num ≠ -1)

/-- Descending insertion used to model Python sorted(..., reverse=True). -/
def insertDesc (x : Int) : List Int → List Int
  | [] => [x]
  | y :: ys => if y ≤ x then x :: y :: ys else y :: insertDesc x ys

/-- Python sorted(page_ids, reverse=True). -/
def sortDesc (l : List Int) : List Int := l.foldr insertDesc []

/-- The page-probing loop of TableHeap.insert_record: fetch each page id in
descending order, try the slotted insert, unpin and continue on a full page;
a struct.error from the insert propagates. -/
def th_insert_try (db : DB) (order : List Int) (rec : List Nat) :
    PyResult (DB × Option RID) :=
  match order with
  | [] => PyResult.ok (db, none)
  | pid :: rest =>
    match fetch_page db pid with
    | PyResult.exn s => PyResult.exn s
    | PyResult.ok (db1, none) => th_insert_try db1 rest rec
    | PyResult.ok (db1, some f) =>
      match insert_record (db1.pages f) rec with
      | PyResult.exn s => PyResult.exn s
      | PyResult.ok (p1, slotRes) =>
        let db2 := { db1 with pages := setPage db1.pages f p1 }
        match slotRes with
        | some s =>
          let u := unpin_page db2 pid true
          PyResult.ok (u.1, some { page_id := pid, slot_num := (s : Int) })
        | none =>
          let u := unpin_page db2 pid p1.is_dirty
          th_insert_try u.1 rest rec

/-- TableHeap.insert_record: probe existing pages (most recent first); if all
are full, allocate a new page, initialize it as a slotted page, insert into
it, and append its id to the heap's page list.  Returns the new system state,
the heap's page-id list and the RID (none on failure). -/
def th_insert (db : DB) (pids : List Int) (rec : List Nat) :
    PyResult (DB × List Int × Option RID) :=
  match th_insert_try db (sortDesc pids) rec with
  | PyResult.exn s => PyResult.exn s
  | PyResult.ok (db1, some r) => PyResult.ok (db1, pids, some r)
  | PyResult.ok (db1, none) =>
    match new_page db1 with
    | PyResult.exn s => PyResult.exn s
    | PyResult.ok (db2, none) => PyResult.ok (db2, pids, none)
    | PyResult.ok (db2, some f) =>
      let np0 := db2.pages f
      let new_pid := np0.page_id
      let np1 := slotted_init np0
      let db3 := { db2 with pages := setPage db2.pages f np1 }
      match insert_record np1 rec with
      | PyResult.exn s => PyResult.exn s
      | PyResult.ok (np2, slotRes) =>
        let db4 := { db3 with pages := setPage db3.pages f np2 }
        match slotRes with
        | none =>
          let u := unpin_page db4 new_pid np2.is_dirty
          let d := delete_page u.1 new_pid
          PyResult.ok (d.1, pids, none)
        | some s =>
          let u := unpin_page db4 new_pid true
          PyResult.ok (u.1, pids ++ [new_pid], some { page_id := new_pid, slot_num := (s : Int) })

/-- TableHeap.get_record: reject invalid RIDs, fetch the page, read the slot,
unpin clean. -/
def th_get (db : DB) (r : RID) : PyResult (DB × Option (List Nat)) :=
  if rid_is_valid r = false ∨ r.page_id = INVALID_PAGE_ID then PyResult.ok (db, none)
  else
    match fetch_page db r.page_id with
    | PyResult.exn s => PyResult.exn s
    | PyResult.ok (db1, none) => PyResult.ok (db1, none)
    | PyResult.ok (db1, some f) =>
      let recRes := get_record (db1.pages f) r.slot_num
      let u := unpin_page db1 r.page_id false
      PyResult.ok (u.1, recRes)

/-- TableHeap.delete_record: reject invalid RIDs, fetch the page, tombstone
the slot, unpin with the page's dirty flag. -/
def th_delete (db : DB) (r : RID) : PyResult (DB × Bool) :=
  if rid_is_valid r = false ∨ r.page_id = INVALID_PAGE_ID then PyResult.ok (db, false)
  else
    match fetch_page db r.page_id with
    | PyResult.exn s => PyResult.exn s
    | PyResult.ok (db1, none) => PyResult.ok (db1, false)
    | PyResult.ok (db1, some f) =>
      let dres := delete_record (db1.pages f) r.slot_num
      let db2 := { db1 with pages := setPage db1.pages f dres.1 }
      let u := unpin_page db2 r.page_id dres.1.is_dirty
      PyResult.ok (u.1, dres.2)

/- ---------- Projections out of PyResult, for stating concrete runs ---------- -/

/-- The value component of a successful stateful call; none on an exception. -/
def pyOut {α : Type} : PyResult (DB × α) → Option α
  | PyResult.ok (_, a) => some a
  | PyResult.exn _ => none

/-- The state component of a successful stateful call; the supplied default
on an exception. -/
def pySt {α : Type} (dflt : DB) : PyResult (DB × α) → DB
  | PyResult.ok (db, _) => db
  | PyResult.exn _ => dflt

/- ---------- Concrete states used to evaluate the code ---------- -/

/-- A disk whose file holds exactly one page (page 0), all zeros. -/
def diskOneZeroPage : DiskState :=
  { file := zeroBytes, file_len := PAGE_SIZE, num_pages := 1, next_page_id_counter := 1 }

/-- A resident copy of page 0 that has been modified in memory (byte 100 set
to 5) and not yet flushed: pinned once, dirty. -/
def residentPage : Page :=
  { data := fun i => if i = 100 then 5 else 0, page_id := 0, pin_count := 1,
    is_dirty := true }

/-- Buffer pool of size 2 in which page 0 is resident in frame 0 (pinned,
dirty, with byte 100 = 5 in memory while the disk copy is all zeros) and
frame 1 is free. -/
def dbHit : DB :=
  { pool_size := 2, pages := fun i => if i = 0 then residentPage else freshPage,
    page_table := [(0, 0)], free_list := [1], repl := [], disk := diskOneZeroPage }

/-- A freshly initialized slotted page (what SlottedPageWrapper.initialize
produces on a fresh Page). -/
def initPage : Page := slotted_init freshPage

/-- A fresh, empty buffer pool of size 2 over an empty disk file. -/
def dbFresh : DB :=
  { pool_size := 2, pages := fun _ => freshPage, page_table := [],
    free_list := [0, 1], repl := [],
    disk := { file := zeroBytes, file_len := 0, num_pages := 0,
              next_page_id_counter := 0 } }

/-- Disk file holding one page (page 0) that is an initialized, empty slotted
page: num_records = 0 at offset 0, free_data_start = 4096 at offsets 2..3. -/
def diskEmptySlotted : DiskState :=
  { file := fun i => if i = 2 then 16 else 0, file_len := PAGE_SIZE,
    num_pages := 1, next_page_id_counter := 1 }

/-- Fresh pool of size 2 over a disk holding one initialized empty slotted
page (page 0). -/
def dbEmptyHeap : DB :=
  { pool_size := 2, pages := fun _ => freshPage, page_table := [],
    free_list := [0, 1], repl := [], disk := diskEmptySlotted }

/-- Disk file holding one slotted page (page 0) that contains one record,
the single byte 97 (the string a), in slot 0: num_records = 1,
free_data_start = 4091, slot 0 = (offset 4091, length 1), byte 4091 = 97. -/
def diskOneRecord : DiskState :=
  { file := fun i =>
      if i = 1 then 1
      else if i = 2 then 15 else if i = 3 then 251
      else if i = 4 then 15 else if i = 5 then 251
      else if i = 7 then 1
      else if i = 4091 then 97 else 0,
    file_len := PAGE_SIZE, num_pages := 1, next_page_id_counter := 1 }

/-- Fresh pool of size 2 over the one-record disk; page 0 is not resident. -/
def dbOneRecord : DB :=
  { pool_size := 2, pages := fun _ => freshPage, page_table := [],
    free_list := [0, 1], repl := [], disk := diskOneRecord }

/- ---------- Claim theorems ---------- -/

/-- C1: refuted on the code (the claim states the intended behavior).  In the
state dbHit, page 0 is resident in frame 0 (pin count 1, dirty, in-memory
byte 100 = 5).  fetch_page(0) is a cache hit, yet the call returns frame 1,
not the resident frame 0: the hit branch increments frame 0's pin count (to 2)
but then falls through the miss path, consumes free frame 1, re-reads page 0
from disk into it (so the returned page's byte 100 is 0, the stale disk value,
and its pin count is 1), and remaps the page table to frame 1.  Thus the pin
count of the page the caller receives is not incremented-by-one, a disk read
does occur, and the caller does not see the same bytes. -/
theorem fetch_page_hit_falls_through :
    pyOut (fetch_page dbHit 0) = some (some 1) ∧
    ((pySt dbHit (fetch_page dbHit 0)).pages 1).pin_count = 1 ∧
    ((pySt dbHit (fetch_page dbHit 0)).pages 1).data 100 = 0 ∧
    (dbHit.pages 0).data 100 = 5 ∧
    ((pySt dbHit (fetch_page dbHit 0)).pages 0).pin_count = 2 ∧
    ptLookup (pySt dbHit (fetch_page dbHit 0)).page_table 0 = some 1 ∧
    (pySt dbHit (fetch_page dbHit 0)).free_list = [] :=
  ⟨rfl, rfl, rfl, rfl, rfl, rfl, rfl⟩

/-- C2: refuted on the code (the claim states the intended behavior).
Inserting the one-byte record 97 into a freshly initialized slotted page
(num_slots = 0, free_data_start = 4096, so the fit test passes) raises
struct.error: _set_slot_record_offset omits the value argument to its
struct.pack_into call.  No slot entry is committed, num_slots is never
incremented, free_data_start is never updated, and no slot index is
returned. -/
theorem insert_record_raises :
    insert_record initPage [97] = PyResult.exn "struct.error" := rfl

/-- C3: refuted on the code (the claim states the intended behavior).  On a
table heap whose page list is [0] over a disk holding an initialized empty
slotted page 0, inserting the record 97 propagates struct.error out of
SlottedPageWrapper._set_slot_record_offset; TableHeap.insert_record never
returns a RID, so the insert/get round trip is unattainable. -/
theorem table_heap_insert_raises :
    th_insert dbEmptyHeap [0] [97] = PyResult.exn "struct.error" := rfl

/-- C4: refuted on the code (the claim states the intended behavior).  On a
fresh pool with free frames, new_page() obtains a frame and allocates a page
id, then evaluates self._page (the attribute is self._pages) and raises
AttributeError: the frame is never zeroed via reset_memory, nothing is
written to disk, no page-table entry is installed and no page is returned. -/
theorem new_page_raises :
    new_page dbFresh = PyResult.exn "AttributeError" := rfl

/-- C5: refuted on the code (the claim states the intended behavior).  In the
state dbHit there is one resident dirty page; flush_all_pages writes it to
disk and then calls self.mark_clean() on the BufferPoolManager, which has no
such method, raising AttributeError: the page is not marked clean and the
call does not complete without error. -/
theorem flush_all_pages_raises :
    flush_all_pages dbHit = PyResult.exn "AttributeError" := rfl

/-- C8: refuted on the code at the table-heap level (the slotted-page-level
statements of the claim hold, but the final sentence fails).  Starting from
dbOneRecord (record 97 in slot 0 of page 0 on disk, page not resident),
TableHeap.delete_record(RID(0,0)) succeeds (it loads the page, tombstones
slot 0 and unpins dirty), yet the subsequent TableHeap.get_record(RID(0,0))
returns the record 97 instead of none: fetch_page's missing early return on
the cache hit re-reads the stale disk copy (where the slot is still live)
into a fresh frame and serves that copy. -/
theorem th_delete_then_get_returns_record :
    pyOut (th_delete dbOneRecord { page_id := 0, slot_num := 0 }) = some true ∧
    pyOut (th_get (pySt dbOneRecord (th_delete dbOneRecord { page_id := 0, slot_num := 0 }))
                  { page_id := 0, slot_num := 0 }) = some (some [97]) :=
  ⟨rfl, rfl⟩

/- ---------- C10: LRU replacer invariant ---------- -/

/-- One call on the replacer, as seen by the candidate list (victim's
returned frame is dropped; only the list evolution matters here). -/
inductive ReplOp where
  | victimOp : ReplOp
  | pinOp : Nat → ReplOp
  | unpinOp : Nat → ReplOp

/-- Apply one replacer call to the candidate list. -/
def applyReplOp (l : List Nat) : ReplOp → List Nat
  | ReplOp.victimOp => (lru_victim l).2
  | ReplOp.pinOp f => lru_pin l f
  | ReplOp.unpinOp f => lru_unpin l f

/-- Apply a sequence of replacer calls. -/
def applyReplOps (l : List Nat) (ops : List ReplOp) : List Nat :=
  ops.foldl applyReplOp l

theorem applyReplOp_nodup (l : List Nat) (op : ReplOp) (h : l.Nodup) :
    (applyReplOp l op).Nodup := by
  cases op with
  | victimOp =>
    cases l with
    | nil => exact h
    | cons a t => exact (List.nodup_cons.mp h).2
  | pinOp f => exact h.erase f
  | unpinOp f =>
    have h1 : (l.erase f).Nodup := h.erase f
    have h2 : f ∉ l.erase f := by
      intro hm
      exact ((List.Nodup.mem_erase_iff h).mp hm).1 rfl
    refine List.Nodup.append h1 (List.nodup_singleton f) ?_
    intro x hx hx2
    rw [List.mem_singleton] at hx2
    subst hx2
    exact h2 hx

theorem applyReplOps_nodup :
    ∀ (ops : List ReplOp) (l : List Nat), l.Nodup → (applyReplOps l ops).Nodup
  | [], _, h => h
  | op :: rest, l, h =>
    applyReplOps_nodup rest (applyReplOp l op) (applyReplOp_nodup l op h)

/-- C10: starting from any duplicate-free candidate list, every sequence of
victim / pin / unpin calls keeps the LRU replacer's candidate list free of
duplicates, size() equals the number of distinct candidate frames, and pin of
an absent frame is a no-op. -/
theorem lru_replacer_invariant (l : List Nat) (h : l.Nodup) (ops : List ReplOp) :
    (applyReplOps l ops).Nodup ∧
    lru_size (applyReplOps l ops) = (applyReplOps l ops).toFinset.card ∧
    ∀ f, f ∉ applyReplOps l ops →
      lru_pin (applyReplOps l ops) f = applyReplOps l ops := by
  have hn : (applyReplOps l ops).Nodup := applyReplOps_nodup ops l h
  refine ⟨hn, (List.toFinset_card_of_nodup hn).symm, ?_⟩
  intro f hf
  exact List.erase_of_not_mem hf

/-- Witness for C10 at a concrete list and call sequence. -/
theorem lru_replacer_invariant_witness :
    ([0, 1] : List Nat).Nodup ∧
    ((applyReplOps [0, 1] [ReplOp.unpinOp 0, ReplOp.victimOp, ReplOp.pinOp 1]).Nodup ∧
     lru_size (applyReplOps [0, 1] [ReplOp.unpinOp 0, ReplOp.victimOp, ReplOp.pinOp 1]) =
       (applyReplOps [0, 1] [ReplOp.unpinOp 0, ReplOp.victimOp, ReplOp.pinOp 1]).toFinset.card ∧
     ∀ f, f ∉ applyReplOps [0, 1] [ReplOp.unpinOp 0, ReplOp.victimOp, ReplOp.pinOp 1] →
       lru_pin (applyReplOps [0, 1] [ReplOp.unpinOp 0, ReplOp.victimOp, ReplOp.pinOp 1]) f =
         applyReplOps [0, 1] [ReplOp.unpinOp 0, ReplOp.victimOp, ReplOp.pinOp 1]) :=
  ⟨by decide, lru_replacer_invariant [0, 1] (by decide)
      [ReplOp.unpinOp 0, ReplOp.victimOp, ReplOp.pinOp 1]⟩

/- ---------- C9: initialize resets the frame's pin count ---------- -/

/-- The system state after running SlottedPageWrapper.initialize on the page
held in frame f (as TableHeap.insert_record does on a new page). -/
def dbInitFrame (db : DB) (f : Nat) : DB :=
  { db with pages := setPage db.pages f (slotted_init (db.pages f)) }

/-- C9: slotted_init (SlottedPageWrapper.initialize) goes through
Page.reset_memory, so whatever the page's pin count was (in particular 1
when the buffer pool holds the page pinned), afterwards the pin count is 0
and the dirty flag ends true (re-marked by the header setters); the buffer is
zero everywhere except the free_data_start header field (offsets 2..3), which
holds PAGE_SIZE, with num_records reading 0.  Consequently unpin_page on a
page table entry whose frame was just initialized returns false and leaves
the state unchanged. -/
theorem slotted_init_unpins :
    (∀ p : Page, (slotted_init p).pin_count = 0 ∧ (slotted_init p).is_dirty = true ∧
      readU16 (slotted_init p).data PAGE_HEADER_FREE_DATA_START_OFFSET = PAGE_SIZE ∧
      readU16 (slotted_init p).data PAGE_HEADER_NUM_RECORDS_OFFSET = 0 ∧
      ∀ i, i ≠ 2 → i ≠ 3 → (slotted_init p).data i = 0) ∧
    ∀ (db : DB) (pid : Int) (f : Nat) (d : Bool),
      ptLookup db.page_table pid = some f →
      unpin_page (dbInitFrame db f) pid d = (dbInitFrame db f, false) := by
  constructor
  · intro p
    refine ⟨rfl, rfl, rfl, rfl, ?_⟩
    intro i h2 h3
    simp only [slotted_init, set_free_data_start_ptr, set_num_records, reset_memory,
      writeU16, zeroBytes, PAGE_HEADER_FREE_DATA_START_OFFSET]
    rw [if_neg h2, if_neg (by omega : ¬ i = 2 + 1), if_neg h2,
        if_neg (by omega : ¬ i = 2 + 1)]
  · intro db pid f d h
    have hpin : ((dbInitFrame db f).pages f).pin_count = 0 := by
      simp [dbInitFrame, setPage, slotted_init, set_free_data_start_ptr,
        set_num_records, reset_memory]
    unfold unpin_page
    rw [show (dbInitFrame db f).page_table = db.page_table from rfl, h]
    dsimp only
    rw [if_pos hpin]

/-- Pool of size 1 holding page 3 pinned in frame 0 (the scenario of C9:
TableHeap.insert_record initializes a page the pool just returned pinned). -/
def dbPinnedOne : DB :=
  { pool_size := 1,
    pages := fun _ => { data := zeroBytes, page_id := 3, pin_count := 1, is_dirty := false },
    page_table := [(3, 0)], free_list := [], repl := [], disk := diskOneZeroPage }

/-- Witness for C9: in dbPinnedOne, page 3 is pinned (pin count 1) in frame 0;
after initializing that frame, unpin_page(3) fails. -/
theorem slotted_init_unpins_witness :
    ptLookup dbPinnedOne.page_table 3 = some 0 ∧
    unpin_page (dbInitFrame dbPinnedOne 0) 3 false = (dbInitFrame dbPinnedOne 0, false) :=
  ⟨rfl, slotted_init_unpins.2 dbPinnedOne 3 0 false rfl⟩

/- ---------- C7: unpin_page ---------- -/

/-- C7: unpin_page fails (returning false and leaving the state unchanged)
when the page id is unknown or the pin count is already 0; otherwise it
returns true, decrements the pin count, sets the dirty flag to the or of the
old flag and the argument (marking dirty exactly when requested and never
clearing), hands the frame to the replacer exactly when the pin count reaches
0, and leaves the candidate list unchanged otherwise. -/
theorem unpin_page_spec (db : DB) (pid : Int) (d : Bool) :
    (ptLookup db.page_table pid = none → unpin_page db pid d = (db, false)) ∧
    (∀ f, ptLookup db.page_table pid = some f → (db.pages f).pin_count = 0 →
      unpin_page db pid d = (db, false)) ∧
    (∀ f, ptLookup db.page_table pid = some f → 0 < (db.pages f).pin_count →
      (unpin_page db pid d).2 = true ∧
      ((unpin_page db pid d).1.pages f).pin_count = (db.pages f).pin_count - 1 ∧
      ((unpin_page db pid d).1.pages f).is_dirty = ((db.pages f).is_dirty || d) ∧
      ((db.pages f).pin_count = 1 →
        (unpin_page db pid d).1.repl = lru_unpin db.repl f) ∧
      ((db.pages f).pin_count ≠ 1 → (unpin_page db pid d).1.repl = db.repl)) := by
  refine ⟨?_, ?_, ?_⟩
  · intro h
    unfold unpin_page
    rw [h]
  · intro f h h0
    unfold unpin_page
    rw [h]
    dsimp only
    rw [if_pos h0]
  · intro f h h0
    have hne : ¬ (db.pages f).pin_count = 0 := by omega
    unfold unpin_page
    rw [h]
    dsimp only
    rw [if_neg hne]
    by_cases h1 : (db.pages f).pin_count - 1 = 0
    · rw [if_pos h1]
      refine ⟨rfl, ?_, ?_, fun _ => rfl, fun hc => absurd (by omega) hc⟩
      · simp [setPage]
      · simp [setPage]
    · rw [if_neg h1]
      refine ⟨rfl, ?_, ?_, fun hc => absurd (by omega : (db.pages f).pin_count - 1 = 0) h1,
        fun _ => rfl⟩
      · simp [setPage]
      · simp [setPage]

/-- Witness for C7 at a concrete state: in dbHit, page 0 is pinned once in
frame 0, so unpin_page(0, true) succeeds, drops the pin count to 0, keeps the
page dirty, and hands frame 0 to the replacer. -/
theorem unpin_page_spec_witness :
    ptLookup dbHit.page_table 0 = some 0 ∧ 0 < (dbHit.pages 0).pin_count ∧
    ((unpin_page dbHit 0 true).2 = true ∧
     ((unpin_page dbHit 0 true).1.pages 0).pin_count = (dbHit.pages 0).pin_count - 1 ∧
     ((unpin_page dbHit 0 true).1.pages 0).is_dirty = ((dbHit.pages 0).is_dirty || true) ∧
     ((dbHit.pages 0).pin_count = 1 →
       (unpin_page dbHit 0 true).1.repl = lru_unpin dbHit.repl 0) ∧
     ((dbHit.pages 0).pin_count ≠ 1 → (unpin_page dbHit 0 true).1.repl = dbHit.repl)) :=
  ⟨rfl, by decide, (unpin_page_spec dbHit 0 true).2.2 0 rfl (by decide)⟩

/- ---------- C6: disk write/read round trip ---------- -/

theorem write_page_data_ok (d : DiskState) (pid : Int) (buf : ByteBuf) (h : 0 ≤ pid) :
    write_page_data d pid buf = PyResult.ok
      { file := fun i =>
          if pid.toNat * PAGE_SIZE ≤ i ∧ i < pid.toNat * PAGE_SIZE + PAGE_SIZE
          then buf (i - pid.toNat * PAGE_SIZE)
          else if i < d.file_len then d.file i else 0,
        file_len := max d.file_len (pid.toNat * PAGE_SIZE + PAGE_SIZE),
        num_pages := if d.num_pages ≤ pid.toNat then pid.toNat + 1 else d.num_pages,
        next_page_id_counter :=
          if d.num_pages ≤ pid.toNat then
            (if d.next_page_id_counter < pid.toNat + 1 then pid.toNat + 1
             else d.next_page_id_counter)
          else d.next_page_id_counter } := by
  have hneg : ¬ pid < 0 := by omega
  by_cases hnp : d.num_pages ≤ pid.toNat
  · simp [write_page_data, hneg, hnp]
  · simp [write_page_data, hneg, hnp]

theorem read_page_data_ok (d : DiskState) (pid : Int) (h : 0 ≤ pid)
    (h2 : pid.toNat < d.num_pages) :
    read_page_data d pid = PyResult.ok
      (fun i => if i < PAGE_SIZE ∧ pid.toNat * PAGE_SIZE + i < d.file_len
                then d.file (pid.toNat * PAGE_SIZE + i) else 0) := by
  have hneg : ¬ pid < 0 := by omega
  have hnp : ¬ d.num_pages ≤ pid.toNat := by omega
  simp [read_page_data, hneg, hnp]

/-- C6: for every non-negative page id and every PAGE_SIZE buffer, writing the
page and then reading it back yields the written bytes on all PAGE_SIZE
positions; the write grows num_pages to id + 1 when the id was at or beyond
the extent, and afterwards the id is inside the extent, so the read does not
take the zero-fill path. -/
theorem write_then_read_roundtrip (d : DiskState) (pid : Int) (buf : ByteBuf)
    (h : 0 ≤ pid) :
    ∃ d2, write_page_data d pid buf = PyResult.ok d2 ∧
      pid.toNat < d2.num_pages ∧
      (d.num_pages ≤ pid.toNat → d2.num_pages = pid.toNat + 1) ∧
      ∃ dst, read_page_data d2 pid = PyResult.ok dst ∧
        ∀ i, i < PAGE_SIZE → dst i = buf i := by
  refine ⟨_, write_page_data_ok d pid buf h, ?_, ?_, ?_⟩
  · dsimp only
    split
    · omega
    · omega
  · intro hle
    dsimp only
    rw [if_pos hle]
  · have hlt : pid.toNat <
        (if d.num_pages ≤ pid.toNat then pid.toNat + 1 else d.num_pages) := by
      split
      · omega
      · omega
    refine ⟨_, read_page_data_ok _ pid h hlt, ?_⟩
    intro i hi
    dsimp only
    have c1 : pid.toNat * PAGE_SIZE + i <
        max d.file_len (pid.toNat * PAGE_SIZE + PAGE_SIZE) :=
      lt_of_lt_of_le (by omega) (le_max_right _ _)
    rw [if_pos ⟨hi, c1⟩]
    have c2 : pid.toNat * PAGE_SIZE ≤ pid.toNat * PAGE_SIZE + i ∧
        pid.toNat * PAGE_SIZE + i < pid.toNat * PAGE_SIZE + PAGE_SIZE :=
      ⟨Nat.le_add_right _ _, by omega⟩
    rw [if_pos c2]
    congr 1
    omega

/-- The constant buffer of byte value 7, used as a concrete page image. -/
def bufSeven : ByteBuf := fun _ => 7

/-- Witness for C6 at a concrete disk state (the empty file) and page id 0. -/
theorem write_then_read_roundtrip_witness :
    (0 : Int) ≤ 0 ∧
    (∃ d2, write_page_data dbFresh.disk 0 bufSeven = PyResult.ok d2 ∧
      (0 : Int).toNat < d2.num_pages ∧
      (dbFresh.disk.num_pages ≤ (0 : Int).toNat → d2.num_pages = (0 : Int).toNat + 1) ∧
      ∃ dst, read_page_data d2 0 = PyResult.ok dst ∧
        ∀ i, i < PAGE_SIZE → dst i = bufSeven i) :=
  ⟨by decide, write_then_read_roundtrip dbFresh.disk 0 bufSeven (by decide)⟩
